import Mathlib

/-! # demo-k8s: the task consumer and the mock HTTP backend

A shallow embedding of

* `backend/cmd/consumer/main.go`  (namespace `Consumer`),
* `backend/main.go`               (namespace `Backend`),
* `k8s-001/backend/main.go`       (namespace `K8s001`),

followed by the properties proved about them.

Conventions of the embedding.

* The shared random source of `math/rand` is a stream of raw values together
  with the number of values already drawn (`Rng`). `rand.Intn(n)` draws one
  value and reduces it modulo `n`, so every result in `[0, n)` is reachable.
* Output is recorded as a list of effects in program order. A line written
  by the `log` package is recorded by its message; the date and time header
  the logger puts in front of it is not part of the record.
* Durations are integers counting nanoseconds, as `time.Duration` does.
* A loop without exit (`for { ... }`) is run for a given number of
  iterations; its body reports whether the enclosing function returned.
-/

/-! ## Random source -/

/-- The random source: the raw values it will deliver, and how many of them
have been drawn so far. -/
structure Rng where
  src : Nat → Nat
  pos : Nat

namespace Rng

/-- Model of `rand.Intn(n)` for `n > 0`: the next raw value, reduced to `[0, n)`. -/
def Intn (g : Rng) (n : Nat) : Nat × Rng :=
  (g.src g.pos % n, ⟨g.src, g.pos + 1⟩)

/-- Model of `rand.Float32()`: a value `k / 2^24` of `[0.0, 1.0)`, given by its
numerator `k`. -/
def Float32 (g : Rng) : Nat × Rng :=
  (g.src g.pos % 2 ^ 24, ⟨g.src, g.pos + 1⟩)

/-- The test `f < 0.1` on a value `f = k / 2^24` drawn by `Float32`. -/
def ltTenth (k : Nat) : Bool :=
  decide (10 * k < 2 ^ 24)

end Rng

/-! ## Effects -/

/-- What a run leaves behind, in program order. -/
inductive Effect where
  /-- A line written through the `log` package (standard error). -/
  | log (msg : String)
  /-- Text written by `fmt.Printf` (standard output). -/
  | print (text : String)
  /-- A call of `time.Sleep` with the given number of nanoseconds. -/
  | sleep (ns : Nat)
  /-- A `go` statement starting `Run` of the task with the given name. -/
  | go (task : String)
  deriving DecidableEq

/-- Model of `time.Second`, in nanoseconds. -/
def Second : Nat := 1000000000

/-- Model of `time.Hour`, in nanoseconds. -/
def Hour : Nat := 3600 * Second

/-- The texts written to standard error or standard output, in order. -/
def printed : List Effect → List String
  | [] => []
  | Effect.log m :: es => m :: printed es
  | Effect.print t :: es => t :: printed es
  | _ :: es => printed es

/-- The durations of the calls of `time.Sleep`, in order. -/
def sleeps : List Effect → List Nat
  | [] => []
  | Effect.sleep ns :: es => ns :: sleeps es
  | _ :: es => sleeps es

/-- The string `s` occurs in `line`. -/
def mentions (line s : String) : Prop :=
  s.data <:+: line.data

/-- The characters the logger writes for a message: the message itself, ended
by a line break when it does not end with one already. -/
def logText (msg : String) : List Char :=
  if msg.data.getLast? = some '\n' then msg.data else msg.data ++ ['\n']

/-- The number of physical lines a logged message takes on standard error. -/
def logLines (msg : String) : Nat :=
  (logText msg).count '\n'

namespace Consumer

/-- A Go `error` value, given by the text of its `Error()` method, which is
what the verb `%v` prints. The nil error is `none : Option GoError`. -/
structure GoError where
  msg : String
  deriving DecidableEq

/-- One pass through the body of a `for { ... }` loop. -/
structure Iter where
  effects : List Effect
  rng : Rng
  /-- The value returned by a `return` inside the body; `none` when the body
  reaches its end and the loop goes round again. -/
  ret : Option (Option GoError)

/-- The state of a call of `Run` after some iterations. -/
structure RunResult where
  effects : List Effect
  rng : Rng
  /-- The value `Run` returned, `none` while it is still in its loop. -/
  ret : Option (Option GoError)

/-- Run `for { body }` for at most `n` iterations, leaving at a `return`. -/
def forever (body : Rng → Iter) : Nat → Rng → RunResult
  | 0, g => ⟨[], g, none⟩
  | n + 1, g =>
    let it := body g
    match it.ret with
    | some r => ⟨it.effects, it.rng, some r⟩
    | none =>
      let rest := forever body n it.rng
      ⟨it.effects ++ rest.effects, rest.rng, rest.ret⟩

/-- The interface `Task`: `Name()` and `Run()`. `Run n g` is the call of
`Run()` with random source `g`, observed after at most `n` loop iterations. -/
structure Task where
  Name : String
  Run : Nat → Rng → RunResult

/-- The first line every sample task logs: `"[%s] Starting task..."`. -/
def startLine (name : String) : String :=
  "[" ++ name ++ "] Starting task..."

/-! ### EmailProcessorTask -/

def EmailProcessorTask.Name : String := "email-processor"

/-- Body of the loop of `EmailProcessorTask.Run`. -/
def EmailProcessorTask.body (g : Rng) : Iter :=
  let (r₁, g₁) := g.Intn 10
  let emailCount := r₁ + 1
  let l₁ := Effect.log ("[" ++ EmailProcessorTask.Name ++ "] Processing "
    ++ toString emailCount ++ " emails...")
  let (r₂, g₂) := g₁.Intn 5
  let s := Effect.sleep ((r₂ + 3) * Second)
  let operations := ["Sending", "Filtering", "Categorizing", "Archiving"]
  let (r₃, g₃) := g₂.Intn operations.length
  let operation := operations.getD r₃ ""
  let l₂ := Effect.log ("[" ++ EmailProcessorTask.Name ++ "] " ++ operation ++ " "
    ++ toString emailCount ++ " emails completed")
  ⟨[l₁, s, l₂], g₃, none⟩

def EmailProcessorTask.Run (n : Nat) (g : Rng) : RunResult :=
  let loop := forever EmailProcessorTask.body n g
  ⟨Effect.log (startLine EmailProcessorTask.Name) :: loop.effects, loop.rng, loop.ret⟩

/-- The value `&EmailProcessorTask{}` seen through the interface `Task`. -/
def EmailProcessorTask.asTask : Task :=
  ⟨EmailProcessorTask.Name, EmailProcessorTask.Run⟩

/-! ### DataSyncTask -/

def DataSyncTask.Name : String := "data-sync"

/-- Body of the loop of `DataSyncTask.Run`. -/
def DataSyncTask.body (g : Rng) : Iter :=
  let (r₁, g₁) := g.Intn 100
  let recordCount := r₁ + 50
  let l₁ := Effect.log ("[" ++ DataSyncTask.Name ++ "] Syncing "
    ++ toString recordCount ++ " records...")
  let (r₂, g₂) := g₁.Intn 7
  let s := Effect.sleep ((r₂ + 5) * Second)
  let sources := ["Database", "API", "File Storage", "Cache"]
  let (r₃, g₃) := g₂.Intn sources.length
  let source := sources.getD r₃ ""
  let l₂ := Effect.log ("[" ++ DataSyncTask.Name ++ "] Synced " ++ toString recordCount
    ++ " records from " ++ source ++ " successfully")
  let (f, g₄) := g₃.Float32
  let warning :=
    if Rng.ltTenth f then
      [Effect.log ("[" ++ DataSyncTask.Name
        ++ "] Warning: Some records failed to sync, will retry")]
    else []
  ⟨[l₁, s, l₂] ++ warning, g₄, none⟩

def DataSyncTask.Run (n : Nat) (g : Rng) : RunResult :=
  let loop := forever DataSyncTask.body n g
  ⟨Effect.log (startLine DataSyncTask.Name) :: loop.effects, loop.rng, loop.ret⟩

/-- The value `&DataSyncTask{}` seen through the interface `Task`. -/
def DataSyncTask.asTask : Task :=
  ⟨DataSyncTask.Name, DataSyncTask.Run⟩

/-! ### ReportGeneratorTask -/

def ReportGeneratorTask.Name : String := "report-generator"

/-- Body of the loop of `ReportGeneratorTask.Run`. -/
def ReportGeneratorTask.body (g : Rng) : Iter :=
  let reportTypes := ["Daily Summary", "Weekly Analytics", "Monthly Report", "Quarterly Review"]
  let (r₁, g₁) := g.Intn reportTypes.length
  let reportType := reportTypes.getD r₁ ""
  let l₁ := Effect.log ("[" ++ ReportGeneratorTask.Name ++ "] Generating " ++ reportType ++ "...")
  let (r₂, g₂) := g₁.Intn 10
  let s := Effect.sleep ((r₂ + 8) * Second)
  let (r₃, g₃) := g₂.Intn 50
  let pages := r₃ + 10
  let l₂ := Effect.log ("[" ++ ReportGeneratorTask.Name ++ "] " ++ reportType
    ++ " generated successfully (" ++ toString pages ++ " pages)")
  let formats := ["PDF", "Excel", "CSV", "JSON"]
  let (r₄, g₄) := g₃.Intn formats.length
  let format := formats.getD r₄ ""
  let l₃ := Effect.log ("[" ++ ReportGeneratorTask.Name ++ "] Exported to " ++ format ++ " format")
  ⟨[l₁, s, l₂, l₃], g₄, none⟩

def ReportGeneratorTask.Run (n : Nat) (g : Rng) : RunResult :=
  let loop := forever ReportGeneratorTask.body n g
  ⟨Effect.log (startLine ReportGeneratorTask.Name) :: loop.effects, loop.rng, loop.ret⟩

/-- The value `&ReportGeneratorTask{}` seen through the interface `Task`. -/
def ReportGeneratorTask.asTask : Task :=
  ⟨ReportGeneratorTask.Name, ReportGeneratorTask.Run⟩

/-! ### main -/

/-- The result of a finished process: the effects of the main control path
and the exit status. -/
structure Outcome where
  effects : List Effect
  status : Nat
  deriving DecidableEq

/-- The names accepted by the `switch` of `main`. -/
def validNames : List String :=
  ["email-processor", "data-sync", "report-generator"]

/-- The `switch *taskName` of `main`; `none` is its `default` branch. -/
def selectTask (taskName : String) : Option Task :=
  if taskName = "email-processor" then some EmailProcessorTask.asTask
  else if taskName = "data-sync" then some DataSyncTask.asTask
  else if taskName = "report-generator" then some ReportGeneratorTask.asTask
  else none

/-- What a communication of the `select` statement of `main` delivers. -/
inductive Event where
  /-- A value received from `sigChan`. -/
  | signal
  /-- The value received from `errChan`: what `task.Run()` returned. -/
  | result (err : Option GoError)
  deriving DecidableEq

/-- The two channels at the time the `select` statement proceeds, and the
choice the runtime makes when both can be received from. -/
structure Wait where
  /-- A signal is buffered in `sigChan`. -/
  sigReady : Bool
  /-- The value buffered in `errChan`, if `task.Run()` has returned. -/
  errReady : Option (Option GoError)
  /-- The runtime picks the first case (`sigChan`) when both are ready. -/
  pick : Bool

/-- The `select` statement over `sigChan` and `errChan`: it receives from a
channel that is ready, from the one the runtime picks if both are, and blocks
(`none`) while neither is. -/
def selectWait (w : Wait) : Option Event :=
  match w.sigReady, w.errReady with
  | true, some r => if w.pick then some Event.signal else some (Event.result r)
  | true, none => some Event.signal
  | false, some r => some (Event.result r)
  | false, none => none

/-- The case taken by the `select` statement of `main`, and the rest of `main`
after it. `log.Fatalf` prints its line and ends the process with status 1;
returning from `main` ends it with status 0. -/
def afterSelect (task : Task) : Event → Outcome
  | Event.signal =>
    ⟨[Effect.log ("[" ++ task.Name ++ "] Received shutdown signal, exiting gracefully..."),
      Effect.print ("[" ++ task.Name ++ "] Task stopped\n")], 0⟩
  | Event.result (some err) =>
    ⟨[Effect.log ("[" ++ task.Name ++ "] Task failed: " ++ err.msg)], 1⟩
  | Event.result none =>
    ⟨[Effect.print ("[" ++ task.Name ++ "] Task stopped\n")], 0⟩

/-- The part of `main` after the task has been chosen: start `task.Run()` on a
goroutine, wait in `select`, and finish. `none` while `select` is blocked. -/
def supervise (task : Task) (w : Wait) : Option Outcome :=
  match selectWait w with
  | none => none
  | some ev =>
    let o := afterSelect task ev
    some ⟨Effect.go task.Name :: o.effects, o.status⟩

/-- The function `main` of the consumer, given the value of the flag `--task`
(the empty string when the flag is absent). `log.Fatal` and `log.Fatalf` print
their line and end the process with status 1. -/
def main (taskName : String) (w : Wait) : Option Outcome :=
  if taskName = "" then
    some ⟨[Effect.log ("Error: --task flag is required. "
      ++ "Available tasks: email-processor, data-sync, report-generator")], 1⟩
  else
    match selectTask taskName with
    | none =>
      some ⟨[Effect.log ("Error: Unknown task '" ++ taskName
        ++ "'. Available tasks: email-processor, data-sync, report-generator")], 1⟩
    | some task => supervise task w

end Consumer

/-! ## The HTTP backend -/

namespace Backend

structure HealthResponse where
  Status : String
  /-- An instant, in nanoseconds. -/
  Timestamp : Int
  Uptime : String
  deriving DecidableEq

structure User where
  ID : Nat
  Name : String
  Email : String
  Age : Nat
  Country : String
  /-- An instant, in nanoseconds. -/
  CreatedAt : Int
  deriving DecidableEq

structure UsersResponse where
  Users : List User
  Total : Nat
  deriving DecidableEq

def firstNames : List String :=
  ["John", "Jane", "Alice", "Bob", "Charlie", "Diana", "Eve", "Frank", "Grace", "Henry"]

def lastNames : List String :=
  ["Smith", "Johnson", "Williams", "Brown", "Jones", "Garcia", "Miller", "Davis", "Rodriguez",
    "Martinez"]

def countries : List String :=
  ["USA", "UK", "Canada", "Australia", "Germany", "France", "Japan", "Brazil", "India", "Spain"]

/-- What the handlers read from outside the program text. -/
structure Env where
  /-- The package variable `startTime`. -/
  startTime : Int
  /-- The reading of `time.Now()` at its `k`-th call inside a handler. -/
  now : Nat → Int
  /-- The library method `Duration.String`. -/
  durationString : Int → String

/-- The part of `*http.Request` the handlers read. -/
structure Request where
  Method : String
  deriving DecidableEq

/-- A value written to the response body. -/
inductive Body where
  /-- Plain text. -/
  | text (s : String)
  /-- The JSON encoding of a `HealthResponse`. -/
  | health (v : HealthResponse)
  /-- The JSON encoding of a `UsersResponse`. -/
  | users (v : UsersResponse)
  deriving DecidableEq

/-- The state of an `http.ResponseWriter`. -/
structure ResponseWriter where
  header : List (String × String)
  /-- The status code, once `WriteHeader` has been called. -/
  status : Option Nat
  /-- The values written to the body, in order. -/
  body : List Body
  deriving DecidableEq

namespace ResponseWriter

/-- The writer a handler chain receives from the server. -/
def fresh : ResponseWriter := ⟨[], none, []⟩

/-- Model of `w.Header().Set(key, value)`. -/
def Set (w : ResponseWriter) (key value : String) : ResponseWriter :=
  { w with header := (w.header.filter fun kv => kv.1 ≠ key) ++ [(key, value)] }

/-- Model of `w.Header().Del(key)`. -/
def Del (w : ResponseWriter) (key : String) : ResponseWriter :=
  { w with header := w.header.filter fun kv => kv.1 ≠ key }

/-- Model of `w.WriteHeader(code)`: only the first call sets the status. -/
def WriteHeader (w : ResponseWriter) (code : Nat) : ResponseWriter :=
  match w.status with
  | none => { w with status := some code }
  | some _ => w

/-- Writing to the body; the first write sends status 200 if none was sent. -/
def Write (w : ResponseWriter) (b : Body) : ResponseWriter :=
  let w₁ := w.WriteHeader 200
  { w₁ with body := w₁.body ++ [b] }

end ResponseWriter

def StatusOK : Nat := 200

def StatusMethodNotAllowed : Nat := 405

def MethodGet : String := "GET"

/-- Model of the library function `http.Error(w, error, code)`. -/
def httpError (w : ResponseWriter) (error : String) (code : Nat) : ResponseWriter :=
  let w := w.Del "Content-Length"
  let w := w.Set "Content-Type" "text/plain; charset=utf-8"
  let w := w.Set "X-Content-Type-Options" "nosniff"
  let w := w.WriteHeader code
  w.Write (Body.text (error ++ "\n"))

def healthHandler (env : Env) (w : ResponseWriter) (r : Request) (g : Rng) :
    ResponseWriter × Rng :=
  if r.Method ≠ MethodGet then
    (httpError w "Method not allowed" StatusMethodNotAllowed, g)
  else
    let uptime := env.now 0 - env.startTime
    let response : HealthResponse :=
      { Status := "healthy", Timestamp := env.now 1, Uptime := env.durationString uptime }
    let w := w.Set "Content-Type" "application/json"
    let w := w.WriteHeader StatusOK
    (w.Write (Body.health response), g)

/-- The zero value of `User`, with which `make([]User, userCount)` fills the slice. -/
def User.zero : User := ⟨0, "", "", 0, "", 0⟩

/-- The loop `for i := 0; i < userCount; i++ { ... }` of `usersHandler`, from
the given `i` on, for at most the given number of iterations. -/
def usersLoop (env : Env) (userCount : Nat) : Nat → Nat → Rng → List User → List User × Rng
  | 0, _, g, users => (users, g)
  | fuel + 1, i, g, users =>
    if i < userCount then
      let (a, g₁) := g.Intn firstNames.length
      let firstName := firstNames.getD a ""
      let (b, g₂) := g₁.Intn lastNames.length
      let lastName := lastNames.getD b ""
      let (c, g₃) := g₂.Intn 50
      let (d, g₄) := g₃.Intn countries.length
      let (e, g₅) := g₄.Intn (365 * 2)
      let u : User :=
        { ID := i + 1
          Name := firstName ++ " " ++ lastName
          Email := firstName ++ "." ++ lastName ++ "@example.com"
          Age := c + 18
          Country := countries.getD d ""
          CreatedAt := env.now i + (-(e : Int)) * 24 * (Hour : Int) }
      usersLoop env userCount fuel (i + 1) g₅ (users.set i u)
    else
      (users, g)

def usersHandler (env : Env) (w : ResponseWriter) (r : Request) (g : Rng) :
    ResponseWriter × Rng :=
  if r.Method ≠ MethodGet then
    (httpError w "Method not allowed" StatusMethodNotAllowed, g)
  else
    let (n, g₁) := g.Intn 6
    let userCount := n + 5
    let users := List.replicate userCount User.zero
    let (users, g₂) := usersLoop env userCount userCount 0 g₁ users
    let response : UsersResponse := { Users := users, Total := users.length }
    let w := w.Set "Content-Type" "application/json"
    let w := w.WriteHeader StatusOK
    (w.Write (Body.users response), g₂)

end Backend

/-- An environment used as a concrete input: the server started at instant 0,
the clock past it, and a fixed rendering of durations. -/
def sampleEnv : Backend.Env :=
  ⟨0, fun k => 1700000000000000000 + k, fun _ => "1s"⟩

/-! ## The copy of the backend under `k8s-001`

Its type and table declarations are the same text as those of `Backend` and
are shared with it; its handlers are embedded again, with the middleware. -/

namespace K8s001

open Backend

/-- A handler function. -/
abbrev HandlerFunc := Env → ResponseWriter → Request → Rng → ResponseWriter × Rng

def corsMiddleware (next : HandlerFunc) : HandlerFunc := fun env w r g =>
  let w := w.Set "Access-Control-Allow-Origin" "*"
  let w := w.Set "Access-Control-Allow-Methods" "GET, POST, PUT, DELETE, OPTIONS"
  let w := w.Set "Access-Control-Allow-Headers" "Content-Type, Authorization"
  if r.Method = "OPTIONS" then
    (w.WriteHeader StatusOK, g)
  else
    next env w r g

def healthHandler (env : Env) (w : ResponseWriter) (r : Request) (g : Rng) :
    ResponseWriter × Rng :=
  if r.Method ≠ MethodGet then
    (httpError w "Method not allowed" StatusMethodNotAllowed, g)
  else
    let uptime := env.now 0 - env.startTime
    let response : HealthResponse :=
      { Status := "healthy", Timestamp := env.now 1, Uptime := env.durationString uptime }
    let w := w.Set "Content-Type" "application/json"
    let w := w.WriteHeader StatusOK
    (w.Write (Body.health response), g)

/-- The loop of `usersHandler`, as in `Backend.usersLoop`. -/
def usersLoop (env : Env) (userCount : Nat) : Nat → Nat → Rng → List User → List User × Rng
  | 0, _, g, users => (users, g)
  | fuel + 1, i, g, users =>
    if i < userCount then
      let (a, g₁) := g.Intn firstNames.length
      let firstName := firstNames.getD a ""
      let (b, g₂) := g₁.Intn lastNames.length
      let lastName := lastNames.getD b ""
      let (c, g₃) := g₂.Intn 50
      let (d, g₄) := g₃.Intn countries.length
      let (e, g₅) := g₄.Intn (365 * 2)
      let u : User :=
        { ID := i + 1
          Name := firstName ++ " " ++ lastName
          Email := firstName ++ "." ++ lastName ++ "@example.com"
          Age := c + 18
          Country := countries.getD d ""
          CreatedAt := env.now i + (-(e : Int)) * 24 * (Hour : Int) }
      usersLoop env userCount fuel (i + 1) g₅ (users.set i u)
    else
      (users, g)

def usersHandler (env : Env) (w : ResponseWriter) (r : Request) (g : Rng) :
    ResponseWriter × Rng :=
  if r.Method ≠ MethodGet then
    (httpError w "Method not allowed" StatusMethodNotAllowed, g)
  else
    let (n, g₁) := g.Intn 6
    let userCount := n + 5
    let users := List.replicate userCount User.zero
    let (users, g₂) := usersLoop env userCount userCount 0 g₁ users
    let response : UsersResponse := { Users := users, Total := users.length }
    let w := w.Set "Content-Type" "application/json"
    let w := w.WriteHeader StatusOK
    (w.Write (Body.users response), g₂)

/-- The handler registered for `/api/v1/health`. -/
def healthRoute : HandlerFunc := corsMiddleware healthHandler

/-- The handler registered for `/api/v1/users`. -/
def usersRoute : HandlerFunc := corsMiddleware usersHandler

end K8s001

/-! ## Properties of the consumer -/

namespace Consumer

/-! ### Helper lemmas -/

theorem selectTask_empty : selectTask "" = none := by
  simp [selectTask]

theorem selectTask_eq_none_iff (taskName : String) :
    selectTask taskName = none ↔ taskName ∉ validNames := by
  unfold selectTask validNames
  by_cases h₁ : taskName = "email-processor"
  · simp [h₁]
  · by_cases h₂ : taskName = "data-sync"
    · simp [h₂]
    · by_cases h₃ : taskName = "report-generator"
      · simp [h₃]
      · simp [h₁, h₂, h₃]

theorem selectTask_name_eq (taskName : String) (task : Task)
    (h : selectTask taskName = some task) : task.Name = taskName := by
  unfold selectTask at h
  split_ifs at h with h₁ h₂ h₃
  · cases h; exact h₁.symm
  · cases h; exact h₂.symm
  · cases h; exact h₃.symm

theorem main_of_selectTask (taskName : String) (task : Task) (w : Wait)
    (h : selectTask taskName = some task) : main taskName w = supervise task w := by
  have hne : taskName ≠ "" := by
    intro h0
    rw [h0, selectTask_empty] at h
    cases h
  simp [main, hne, h]

theorem mentions_mid (a s b : String) : mentions (a ++ s ++ b) s :=
  ⟨a.data, b.data, by simp [String.data_append]⟩

theorem mentions_end (a s : String) : mentions (a ++ s) s :=
  ⟨a.data, [], by simp [String.data_append]⟩

theorem failed_ne_stopped (n m : String) :
    "[" ++ n ++ "] Task failed: " ++ m ≠ "[" ++ n ++ "] Task stopped\n" := by
  intro h
  have := congrArg String.data h
  simp at this

theorem signal_ne_failed (n m : String) :
    "[" ++ n ++ "] Received shutdown signal, exiting gracefully..."
      ≠ "[" ++ n ++ "] Task failed: " ++ m := by
  intro h
  have := congrArg String.data h
  simp at this

theorem required_ne_startLine (n : String) :
    "Error: --task flag is required. "
      ++ "Available tasks: email-processor, data-sync, report-generator" ≠ startLine n := by
  intro h
  have := congrArg String.data h
  simp [startLine] at this

theorem unknown_ne_startLine (taskName n : String) :
    "Error: Unknown task '" ++ taskName
      ++ "'. Available tasks: email-processor, data-sync, report-generator" ≠ startLine n := by
  intro h
  have := congrArg String.data h
  simp [startLine] at this

theorem required_mentions (n : String) (h : n ∈ validNames) :
    mentions ("Error: --task flag is required. "
      ++ "Available tasks: email-processor, data-sync, report-generator") n := by
  simp only [validNames, List.mem_cons, List.mem_singleton, List.not_mem_nil, or_false] at h
  rcases h with rfl | rfl | rfl
  · exact ⟨"Error: --task flag is required. Available tasks: ".data,
      ", data-sync, report-generator".data, by decide⟩
  · exact ⟨"Error: --task flag is required. Available tasks: email-processor, ".data,
      ", report-generator".data, by decide⟩
  · exact ⟨"Error: --task flag is required. Available tasks: email-processor, data-sync, ".data,
      [], by decide⟩

theorem unknown_mentions (taskName n : String) (h : n ∈ validNames) :
    mentions ("Error: Unknown task '" ++ taskName
      ++ "'. Available tasks: email-processor, data-sync, report-generator") n := by
  simp only [validNames, List.mem_cons, List.mem_singleton, List.not_mem_nil, or_false] at h
  rcases h with rfl | rfl | rfl
  · exact ⟨("Error: Unknown task '" ++ taskName ++ "'. Available tasks: ").data,
      ", data-sync, report-generator".data, by simp [String.data_append]⟩
  · exact ⟨("Error: Unknown task '" ++ taskName ++ "'. Available tasks: email-processor, ").data,
      ", report-generator".data, by simp [String.data_append]⟩
  · exact ⟨("Error: Unknown task '" ++ taskName
      ++ "'. Available tasks: email-processor, data-sync, ").data,
      [], by simp [String.data_append]⟩

end Consumer

namespace Consumer

/-! ### Task selection -/

/-- C1: for every task name of the fixed set `email-processor`, `data-sync`,
`report-generator`, the `switch` of `main` resolves to a task whose `Name()` is
exactly that name, and `main` goes on to run that task. -/
theorem selectTask_valid (taskName : String) (h : taskName ∈ validNames) :
    ∃ task, selectTask taskName = some task ∧ task.Name = taskName
      ∧ ∀ w, main taskName w = supervise task w := by
  cases hs : selectTask taskName with
  | none => exact absurd h ((selectTask_eq_none_iff taskName).mp hs)
  | some task =>
    exact ⟨task, rfl, selectTask_name_eq taskName task hs,
      fun w => main_of_selectTask taskName task w hs⟩

theorem selectTask_valid_witness :
    "report-generator" ∈ validNames
      ∧ ∃ task, selectTask "report-generator" = some task ∧ task.Name = "report-generator"
        ∧ ∀ w, main "report-generator" w = supervise task w :=
  ⟨by decide, selectTask_valid "report-generator" (by decide)⟩

/-- C2: for every value of `--task` outside the fixed set, the empty (absent)
value included, `main` ends with a configuration error: its only effect is one
logged line that lists the three valid names, the exit status is not zero, no
goroutine is started, and no line `[name] Starting task...` is printed. -/
theorem main_config_error (taskName : String) (w : Wait) (h : taskName ∉ validNames) :
    ∃ o line, main taskName w = some o
      ∧ o.status ≠ 0
      ∧ o.effects = [Effect.log line]
      ∧ (∀ n ∈ validNames, mentions line n)
      ∧ (∀ n, Effect.go n ∉ o.effects)
      ∧ (∀ n, startLine n ∉ printed o.effects) := by
  by_cases h0 : taskName = ""
  · have hm : main taskName w = some ⟨[Effect.log ("Error: --task flag is required. "
        ++ "Available tasks: email-processor, data-sync, report-generator")], 1⟩ := by
      simp only [main, h0, if_true]
    refine ⟨_, _, hm, Nat.one_ne_zero, rfl, required_mentions, by simp, ?_⟩
    intro n hn
    simp only [printed, List.mem_singleton] at hn
    exact required_ne_startLine n hn.symm
  · have hs := (selectTask_eq_none_iff taskName).mpr h
    have hm : main taskName w = some ⟨[Effect.log ("Error: Unknown task '" ++ taskName
        ++ "'. Available tasks: email-processor, data-sync, report-generator")], 1⟩ := by
      simp only [main, h0, if_false, hs]
    refine ⟨_, _, hm, Nat.one_ne_zero, rfl, unknown_mentions taskName, by simp, ?_⟩
    intro n hn
    simp only [printed, List.mem_singleton] at hn
    exact unknown_ne_startLine taskName n hn.symm

theorem main_config_error_witness :
    "unknown-task" ∉ validNames
      ∧ ∃ o line, main "unknown-task" ⟨true, none, false⟩ = some o
        ∧ o.status ≠ 0
        ∧ o.effects = [Effect.log line]
        ∧ (∀ n ∈ validNames, mentions line n)
        ∧ (∀ n, Effect.go n ∉ o.effects)
        ∧ (∀ n, startLine n ∉ printed o.effects) :=
  ⟨by decide, main_config_error "unknown-task" ⟨true, none, false⟩ (by decide)⟩

/-! ### The supervisor -/

/-- C3: for every task and every non-nil error `e`, if the `select` of `main`
receives the result of `Run()` carrying `e`, then the process ends with a
status that is not zero, the only line the main control path prints is the
fatal line `[name] Task failed: e`, and the closing line `[name] Task stopped`
is not printed. The same holds for `main` whenever its `switch` chose the task. -/
theorem supervise_failed (task : Task) (w : Wait) (e : GoError)
    (h : selectWait w = some (Event.result (some e))) :
    ∃ o, supervise task w = some o
      ∧ o.status = 1
      ∧ printed o.effects = ["[" ++ task.Name ++ "] Task failed: " ++ e.msg]
      ∧ "[" ++ task.Name ++ "] Task stopped\n" ∉ printed o.effects
      ∧ ∀ taskName, selectTask taskName = some task → main taskName w = some o := by
  have hs : supervise task w = some ⟨[Effect.go task.Name,
      Effect.log ("[" ++ task.Name ++ "] Task failed: " ++ e.msg)], 1⟩ := by
    simp [supervise, h, afterSelect]
  refine ⟨_, hs, rfl, rfl, ?_, ?_⟩
  · simp only [printed, List.mem_singleton]
    exact fun hc => failed_ne_stopped task.Name e.msg hc.symm
  · intro taskName ht
    rw [main_of_selectTask taskName task w ht, hs]

theorem supervise_failed_witness :
    selectWait ⟨false, some (some ⟨"boom"⟩), false⟩ = some (Event.result (some ⟨"boom"⟩))
      ∧ ∃ o, supervise DataSyncTask.asTask ⟨false, some (some ⟨"boom"⟩), false⟩ = some o
        ∧ o.status = 1
        ∧ printed o.effects
            = ["[" ++ DataSyncTask.asTask.Name ++ "] Task failed: " ++ (GoError.mk "boom").msg]
        ∧ "[" ++ DataSyncTask.asTask.Name ++ "] Task stopped\n" ∉ printed o.effects
        ∧ ∀ taskName, selectTask taskName = some DataSyncTask.asTask →
            main taskName ⟨false, some (some ⟨"boom"⟩), false⟩ = some o :=
  ⟨by decide, supervise_failed DataSyncTask.asTask ⟨false, some (some ⟨"boom"⟩), false⟩
    ⟨"boom"⟩ (by decide)⟩

end Consumer

namespace Consumer

/-- C5: when a signal and a failed result (a non-nil error `e`) are both ready
at the `select` of `main`, the `select` does not block, and the process ends
in exactly one of two ways, fixed by the case the runtime picks: interrupted
(signal line, `Task stopped`, status 0) when it picks `sigChan`, failed (the
`Task failed` line alone, status 1) when it picks `errChan`. The two ends are
different, so a run is never both. -/
theorem supervise_race (task : Task) (e : GoError) (pick : Bool) :
    selectWait ⟨true, some (some e), pick⟩
        = some (if pick then Event.signal else Event.result (some e))
      ∧ supervise task ⟨true, some (some e), pick⟩
        = some (if pick then
            ⟨[Effect.go task.Name,
              Effect.log ("[" ++ task.Name ++ "] Received shutdown signal, exiting gracefully..."),
              Effect.print ("[" ++ task.Name ++ "] Task stopped\n")], 0⟩
          else
            ⟨[Effect.go task.Name,
              Effect.log ("[" ++ task.Name ++ "] Task failed: " ++ e.msg)], 1⟩)
      ∧ (⟨[Effect.go task.Name,
            Effect.log ("[" ++ task.Name ++ "] Received shutdown signal, exiting gracefully..."),
            Effect.print ("[" ++ task.Name ++ "] Task stopped\n")], 0⟩ : Outcome)
          ≠ ⟨[Effect.go task.Name,
              Effect.log ("[" ++ task.Name ++ "] Task failed: " ++ e.msg)], 1⟩ := by
  refine ⟨?_, ?_, ?_⟩
  · cases pick <;> simp [selectWait]
  · cases pick <;> simp [supervise, selectWait, afterSelect]
  · intro hc
    have := congrArg Outcome.status hc
    simp at this

theorem supervise_race_witness :
    supervise ReportGeneratorTask.asTask ⟨true, some (some ⟨"disk full"⟩), false⟩
        = some ⟨[Effect.go "report-generator",
            Effect.log "[report-generator] Task failed: disk full"], 1⟩
      ∧ supervise ReportGeneratorTask.asTask ⟨true, some (some ⟨"disk full"⟩), true⟩
        = some ⟨[Effect.go "report-generator",
            Effect.log "[report-generator] Received shutdown signal, exiting gracefully...",
            Effect.print "[report-generator] Task stopped\n"], 0⟩ :=
  ⟨(supervise_race ReportGeneratorTask.asTask ⟨"disk full"⟩ false).2.1,
   (supervise_race ReportGeneratorTask.asTask ⟨"disk full"⟩ true).2.1⟩

end Consumer

/-! ### The loops of the sample tasks -/

theorem sleeps_append (a b : List Effect) : sleeps (a ++ b) = sleeps a ++ sleeps b := by
  induction a with
  | nil => rfl
  | cons e es ih => cases e <;> simp [sleeps, ih]

namespace Consumer

theorem forever_ret_none (body : Rng → Iter) (hb : ∀ g, (body g).ret = none) (n : Nat)
    (g : Rng) : (forever body n g).ret = none := by
  induction n generalizing g with
  | zero => rfl
  | succ n ih => simp [forever, hb g, ih]

theorem forever_sleeps (body : Rng → Iter) (lo hi : Nat) (hb : ∀ g, (body g).ret = none)
    (hs : ∀ g, ∃ d, sleeps (body g).effects = [d] ∧ lo ≤ d ∧ d ≤ hi) (n : Nat) (g : Rng) :
    (sleeps (forever body n g).effects).length = n
      ∧ ∀ d ∈ sleeps (forever body n g).effects, lo ≤ d ∧ d ≤ hi := by
  induction n generalizing g with
  | zero => simp [forever, sleeps]
  | succ n ih =>
    obtain ⟨d, hd, hlo, hhi⟩ := hs g
    obtain ⟨hlen, hall⟩ := ih (body g).rng
    simp only [forever, hb g, sleeps_append, hd]
    refine ⟨by simp [hlen], ?_⟩
    intro x hx
    simp only [List.singleton_append, List.mem_cons] at hx
    rcases hx with rfl | hx
    · exact ⟨hlo, hhi⟩
    · exact hall x hx

theorem email_body_sleep (g : Rng) :
    sleeps (EmailProcessorTask.body g).effects = [(g.src (g.pos + 1) % 5 + 3) * Second] := by
  simp [EmailProcessorTask.body, Rng.Intn, sleeps]

theorem dataSync_body_sleep (g : Rng) :
    sleeps (DataSyncTask.body g).effects = [(g.src (g.pos + 1) % 7 + 5) * Second] := by
  simp only [DataSyncTask.body, Rng.Intn, Rng.Float32]
  split_ifs <;> simp [sleeps]

theorem report_body_sleep (g : Rng) :
    sleeps (ReportGeneratorTask.body g).effects = [(g.src (g.pos + 1) % 10 + 8) * Second] := by
  simp [ReportGeneratorTask.body, Rng.Intn, sleeps]

theorem dataSync_body_ret (g : Rng) : (DataSyncTask.body g).ret = none := by
  simp [DataSyncTask.body]

theorem email_body_bounds (g : Rng) :
    ∃ d, sleeps (EmailProcessorTask.body g).effects = [d]
      ∧ 3 * Second ≤ d ∧ d ≤ 18 * Second := by
  refine ⟨_, email_body_sleep g, ?_, ?_⟩
  · exact Nat.mul_le_mul_right _ (by omega)
  · exact Nat.mul_le_mul_right _ (by omega)

theorem dataSync_body_bounds (g : Rng) :
    ∃ d, sleeps (DataSyncTask.body g).effects = [d]
      ∧ 3 * Second ≤ d ∧ d ≤ 18 * Second := by
  refine ⟨_, dataSync_body_sleep g, ?_, ?_⟩
  · exact Nat.mul_le_mul_right _ (by omega)
  · exact Nat.mul_le_mul_right _ (by omega)

theorem report_body_bounds (g : Rng) :
    ∃ d, sleeps (ReportGeneratorTask.body g).effects = [d]
      ∧ 3 * Second ≤ d ∧ d ≤ 18 * Second := by
  refine ⟨_, report_body_sleep g, ?_, ?_⟩
  · exact Nat.mul_le_mul_right _ (by omega)
  · exact Nat.mul_le_mul_right _ (by omega)

/-- C6: in each of the three sample tasks, for every state of the random
source, one pass of the loop calls `time.Sleep` exactly once, with a duration
of at least 3 and at most 18 seconds (`Intn(5)+3`, `Intn(7)+5`, `Intn(10)+8`
seconds); and a run of `n` passes sleeps exactly `n` times, each time within
these bounds. -/
theorem sleep_once_per_cycle (g : Rng) (n : Nat) :
    (sleeps (EmailProcessorTask.body g).effects = [(g.src (g.pos + 1) % 5 + 3) * Second]
        ∧ 3 * Second ≤ (g.src (g.pos + 1) % 5 + 3) * Second
        ∧ (g.src (g.pos + 1) % 5 + 3) * Second ≤ 18 * Second)
      ∧ (sleeps (DataSyncTask.body g).effects = [(g.src (g.pos + 1) % 7 + 5) * Second]
        ∧ 3 * Second ≤ (g.src (g.pos + 1) % 7 + 5) * Second
        ∧ (g.src (g.pos + 1) % 7 + 5) * Second ≤ 18 * Second)
      ∧ (sleeps (ReportGeneratorTask.body g).effects = [(g.src (g.pos + 1) % 10 + 8) * Second]
        ∧ 3 * Second ≤ (g.src (g.pos + 1) % 10 + 8) * Second
        ∧ (g.src (g.pos + 1) % 10 + 8) * Second ≤ 18 * Second)
      ∧ ((sleeps (EmailProcessorTask.Run n g).effects).length = n
        ∧ ∀ d ∈ sleeps (EmailProcessorTask.Run n g).effects, 3 * Second ≤ d ∧ d ≤ 18 * Second)
      ∧ ((sleeps (DataSyncTask.Run n g).effects).length = n
        ∧ ∀ d ∈ sleeps (DataSyncTask.Run n g).effects, 3 * Second ≤ d ∧ d ≤ 18 * Second)
      ∧ ((sleeps (ReportGeneratorTask.Run n g).effects).length = n
        ∧ ∀ d ∈ sleeps (ReportGeneratorTask.Run n g).effects,
            3 * Second ≤ d ∧ d ≤ 18 * Second) := by
  refine ⟨⟨email_body_sleep g, ?_, ?_⟩, ⟨dataSync_body_sleep g, ?_, ?_⟩,
    ⟨report_body_sleep g, ?_, ?_⟩, ?_, ?_, ?_⟩
  · exact Nat.mul_le_mul_right _ (by omega)
  · exact Nat.mul_le_mul_right _ (by omega)
  · exact Nat.mul_le_mul_right _ (by omega)
  · exact Nat.mul_le_mul_right _ (by omega)
  · exact Nat.mul_le_mul_right _ (by omega)
  · exact Nat.mul_le_mul_right _ (by omega)
  · exact forever_sleeps EmailProcessorTask.body _ _
      (fun g => by simp [EmailProcessorTask.body]) email_body_bounds n g
  · exact forever_sleeps DataSyncTask.body _ _
      dataSync_body_ret dataSync_body_bounds n g
  · exact forever_sleeps ReportGeneratorTask.body _ _
      (fun g => by simp [ReportGeneratorTask.body]) report_body_bounds n g

end Consumer

namespace Consumer

theorem dataSync_body_rng (g : Rng) : (DataSyncTask.body g).rng = ⟨g.src, g.pos + 4⟩ := by
  simp [DataSyncTask.body, Rng.Intn, Rng.Float32]

theorem dataSync_forever_succ (n : Nat) (g : Rng) :
    (forever DataSyncTask.body (n + 1) g).effects
      = (DataSyncTask.body g).effects
        ++ (forever DataSyncTask.body n ⟨g.src, g.pos + 4⟩).effects := by
  simp [forever, dataSync_body_ret g, dataSync_body_rng g]

/-- C8: in `DataSyncTask.Run`, take one pass of the loop in which the simulated
partial failure fires (`rand.Float32() < 0.1`) and one, on the same first three
draws, in which it does not. The first has the effects of the second followed
by one logged warning line, and nothing else differs: neither pass returns
from `Run`, both leave the random source four draws further, and the loop
goes on with the next pass from there. For every sequence of draws and every
`n`, `Run` is still in its loop after `n` passes, having slept `n` times. -/
theorem dataSync_warning_continues (g g' : Rng) (n : Nat)
    (hpos : g'.pos = g.pos)
    (hsrc : ∀ i, i < 3 → g'.src (g.pos + i) = g.src (g.pos + i))
    (hw : Rng.ltTenth (g.src (g.pos + 3) % 2 ^ 24) = true)
    (hw' : Rng.ltTenth (g'.src (g.pos + 3) % 2 ^ 24) = false) :
    (DataSyncTask.body g).effects
        = (DataSyncTask.body g').effects
          ++ [Effect.log "[data-sync] Warning: Some records failed to sync, will retry"]
      ∧ (DataSyncTask.body g).ret = none ∧ (DataSyncTask.body g').ret = none
      ∧ (DataSyncTask.body g).rng.pos = g.pos + 4
      ∧ (DataSyncTask.body g').rng.pos = g.pos + 4
      ∧ (forever DataSyncTask.body (n + 1) g).effects
          = (DataSyncTask.body g).effects
            ++ (forever DataSyncTask.body n ⟨g.src, g.pos + 4⟩).effects
      ∧ (DataSyncTask.Run n g).ret = none
      ∧ (sleeps (DataSyncTask.Run n g).effects).length = n := by
  have h0 := hsrc 0 (by omega)
  have h1 := hsrc 1 (by omega)
  have h2 := hsrc 2 (by omega)
  simp only [Nat.add_zero] at h0
  have e24 : (2 : Nat) ^ 24 = 16777216 := by norm_num
  rw [e24] at hw hw'
  refine ⟨?_, dataSync_body_ret g, dataSync_body_ret g', ?_, ?_,
    dataSync_forever_succ n g, forever_ret_none _ dataSync_body_ret n g,
    (forever_sleeps DataSyncTask.body _ _ dataSync_body_ret dataSync_body_bounds n g).1⟩
  · simp [DataSyncTask.body, Rng.Intn, Rng.Float32, hpos, h0, h1, h2, hw, hw',
      DataSyncTask.Name, Nat.add_assoc]
  · rw [dataSync_body_rng]
  · rw [dataSync_body_rng, hpos]

theorem dataSync_warning_continues_witness :
    (DataSyncTask.body ⟨fun _ => 0, 0⟩).effects
        = (DataSyncTask.body ⟨fun i => if i = 3 then 2 ^ 23 else 0, 0⟩).effects
          ++ [Effect.log "[data-sync] Warning: Some records failed to sync, will retry"]
      ∧ (DataSyncTask.body ⟨fun _ => 0, 0⟩).ret = none
      ∧ (DataSyncTask.body ⟨fun i => if i = 3 then 2 ^ 23 else 0, 0⟩).ret = none
      ∧ (DataSyncTask.body ⟨fun _ => 0, 0⟩).rng.pos = 0 + 4
      ∧ (DataSyncTask.body ⟨fun i => if i = 3 then 2 ^ 23 else 0, 0⟩).rng.pos = 0 + 4
      ∧ (forever DataSyncTask.body (2 + 1) ⟨fun _ => 0, 0⟩).effects
          = (DataSyncTask.body ⟨fun _ => 0, 0⟩).effects
            ++ (forever DataSyncTask.body 2 ⟨fun _ => 0, 0 + 4⟩).effects
      ∧ (DataSyncTask.Run 2 ⟨fun _ => 0, 0⟩).ret = none
      ∧ (sleeps (DataSyncTask.Run 2 ⟨fun _ => 0, 0⟩).effects).length = 2 :=
  dataSync_warning_continues ⟨fun _ => 0, 0⟩ ⟨fun i => if i = 3 then 2 ^ 23 else 0, 0⟩ 2
    rfl (by decide) (by decide) (by decide)

end Consumer

/-! ### Interruption and the fatal lines -/

theorem logLines_one (msg : String) (h : '\n' ∉ msg.data) : logLines msg = 1 := by
  have hl : msg.data.getLast? ≠ some '\n' := fun hc => h (List.mem_of_getLast?_eq_some hc)
  simp [logLines, logText, hl, List.count_append, List.count_eq_zero_of_not_mem h]

namespace Consumer

theorem sample_run_ret (taskName : String) (task : Task) (h : selectTask taskName = some task)
    (n : Nat) (g : Rng) : (task.Run n g).ret = none := by
  unfold selectTask at h
  split_ifs at h
  · cases h
    exact forever_ret_none _ (fun g => by simp [EmailProcessorTask.body]) n g
  · cases h
    exact forever_ret_none _ dataSync_body_ret n g
  · cases h
    exact forever_ret_none _ (fun g => by simp [ReportGeneratorTask.body]) n g

theorem selectWait_signal (w : Wait) (hsig : w.sigReady = true)
    (hfirst : w.errReady = none ∨ w.pick = true) : selectWait w = some Event.signal := by
  obtain ⟨s, r, p⟩ := w
  simp only at hsig hfirst
  subst hsig
  cases r with
  | none => rfl
  | some r =>
    rcases hfirst with h | h
    · cases h
    · subst h
      rfl

theorem selectWait_result (w : Wait) (r : Option GoError) (herr : w.errReady = some r)
    (hfirst : w.sigReady = false ∨ w.pick = false) :
    selectWait w = some (Event.result r) := by
  obtain ⟨s, r', p⟩ := w
  simp only at herr hfirst
  subst herr
  rcases hfirst with h | h
  · subst h
    rfl
  · subst h
    cases s <;> rfl

theorem valid_no_break (taskName : String) (h : taskName ∈ validNames) :
    '\n' ∉ taskName.data := by
  simp only [validNames, List.mem_cons, List.mem_singleton, List.not_mem_nil, or_false] at h
  rcases h with rfl | rfl | rfl <;> decide

/-- C4: for every task, if a shutdown signal is ready at the `select` of `main`
and is what the `select` takes first (the result channel is empty, or holds a
value and the runtime picks `sigChan`), then the `select` receives the signal,
the main control path logs `[name] Received shutdown signal, exiting
gracefully...`, prints `[name] Task stopped`, prints no `Task failed` line,
and returns from `main` with exit status zero. The same holds for `main`
whenever its `switch` chose the task; and for such a task, whose `Run()` is
still in its loop after any number of passes on any random source, the signal
alone ends the process this way. -/
theorem supervise_interrupted (task : Task) (w : Wait) (hsig : w.sigReady = true)
    (hfirst : w.errReady = none ∨ w.pick = true) :
    selectWait w = some Event.signal
      ∧ ∃ o, supervise task w = some o
        ∧ o.status = 0
        ∧ printed o.effects
            = ["[" ++ task.Name ++ "] Received shutdown signal, exiting gracefully...",
               "[" ++ task.Name ++ "] Task stopped\n"]
        ∧ (∀ m, "[" ++ task.Name ++ "] Task failed: " ++ m ∉ printed o.effects)
        ∧ ∀ taskName, selectTask taskName = some task →
            main taskName w = some o
              ∧ ∀ n g pick, (task.Run n g).ret = none
                  ∧ main taskName ⟨true, (task.Run n g).ret, pick⟩ = some o := by
  have hw := selectWait_signal w hsig hfirst
  have hs : supervise task w = some ⟨[Effect.go task.Name,
      Effect.log ("[" ++ task.Name ++ "] Received shutdown signal, exiting gracefully..."),
      Effect.print ("[" ++ task.Name ++ "] Task stopped\n")], 0⟩ := by
    simp [supervise, hw, afterSelect]
  refine ⟨hw, _, hs, rfl, rfl, ?_, ?_⟩
  · intro m hm
    simp only [printed, List.mem_cons, List.mem_singleton, List.not_mem_nil, or_false] at hm
    rcases hm with hm | hm
    · exact signal_ne_failed task.Name m hm.symm
    · exact failed_ne_stopped task.Name m hm
  · intro taskName ht
    refine ⟨by rw [main_of_selectTask taskName task w ht, hs], ?_⟩
    intro n g pick
    have hr := sample_run_ret taskName task ht n g
    refine ⟨hr, ?_⟩
    rw [main_of_selectTask taskName task _ ht, hr]
    simp [supervise, selectWait, afterSelect]

theorem supervise_interrupted_witness :
    (Wait.mk true none false).sigReady = true
      ∧ ((Wait.mk true none false).errReady = none ∨ (Wait.mk true none false).pick = true)
      ∧ selectWait ⟨true, none, false⟩ = some Event.signal
      ∧ ∃ o, supervise EmailProcessorTask.asTask ⟨true, none, false⟩ = some o
        ∧ o.status = 0
        ∧ printed o.effects
            = ["[" ++ EmailProcessorTask.asTask.Name
                ++ "] Received shutdown signal, exiting gracefully...",
               "[" ++ EmailProcessorTask.asTask.Name ++ "] Task stopped\n"]
        ∧ (∀ m, "[" ++ EmailProcessorTask.asTask.Name ++ "] Task failed: " ++ m
            ∉ printed o.effects)
        ∧ ∀ taskName, selectTask taskName = some EmailProcessorTask.asTask →
            main taskName ⟨true, none, false⟩ = some o
              ∧ ∀ n g pick, (EmailProcessorTask.asTask.Run n g).ret = none
                  ∧ main taskName ⟨true, (EmailProcessorTask.asTask.Run n g).ret, pick⟩
                    = some o :=
  ⟨rfl, Or.inl rfl,
    supervise_interrupted EmailProcessorTask.asTask ⟨true, none, false⟩ rfl (Or.inl rfl)⟩

/-- C7, as it is worded, fails twice. With `--task` set to a value holding a
line break, here `a`, a line break, `b`, the unknown-task path prints a
message that takes two physical lines. With `--task` missing, no task has
been chosen and the value is empty, so the line printed has no task to name:
it is the fixed text about the flag. -/
theorem main_fatal_line_counterexample :
    main "a\nb" ⟨false, none, false⟩
        = some ⟨[Effect.log ("Error: Unknown task 'a\nb'. "
            ++ "Available tasks: email-processor, data-sync, report-generator")], 1⟩
      ∧ logLines ("Error: Unknown task 'a\nb'. "
            ++ "Available tasks: email-processor, data-sync, report-generator") = 2
      ∧ main "" ⟨false, none, false⟩
        = some ⟨[Effect.log ("Error: --task flag is required. "
            ++ "Available tasks: email-processor, data-sync, report-generator")], 1⟩
      ∧ selectTask "" = none := by
  refine ⟨by decide, by decide, by decide, selectTask_empty⟩

/-- C7, amended: each fatal path of `main` makes exactly one call of the logger
and ends with status 1. With `--task` missing, the message is one physical
line that names the flag and says it is required. With an unknown value, the
message names that value and says it is unknown, and is one physical line
when the value holds no line break. When `Run()` of the chosen task returns
an error and the `select` takes it, the message is the only text the main
control path prints, names the task and the error, and is one physical line
when the error text holds no line break. -/
theorem main_fatal_one_line :
    (∀ w, main "" w = some ⟨[Effect.log ("Error: --task flag is required. "
            ++ "Available tasks: email-processor, data-sync, report-generator")], 1⟩
        ∧ logLines ("Error: --task flag is required. "
            ++ "Available tasks: email-processor, data-sync, report-generator") = 1
        ∧ mentions ("Error: --task flag is required. "
            ++ "Available tasks: email-processor, data-sync, report-generator")
            "--task flag is required")
      ∧ (∀ taskName w, taskName ≠ "" → taskName ∉ validNames →
          main taskName w = some ⟨[Effect.log ("Error: Unknown task '" ++ taskName
              ++ "'. Available tasks: email-processor, data-sync, report-generator")], 1⟩
            ∧ mentions ("Error: Unknown task '" ++ taskName
              ++ "'. Available tasks: email-processor, data-sync, report-generator") taskName
            ∧ mentions ("Error: Unknown task '" ++ taskName
              ++ "'. Available tasks: email-processor, data-sync, report-generator")
              "Unknown task"
            ∧ ('\n' ∉ taskName.data → logLines ("Error: Unknown task '" ++ taskName
              ++ "'. Available tasks: email-processor, data-sync, report-generator") = 1))
      ∧ (∀ taskName task w e, selectTask taskName = some task →
          w.errReady = some (some e) → (w.sigReady = false ∨ w.pick = false) →
          main taskName w = some ⟨[Effect.go task.Name,
              Effect.log ("[" ++ task.Name ++ "] Task failed: " ++ e.msg)], 1⟩
            ∧ printed [Effect.go task.Name,
                Effect.log ("[" ++ task.Name ++ "] Task failed: " ++ e.msg)]
              = ["[" ++ task.Name ++ "] Task failed: " ++ e.msg]
            ∧ task.Name = taskName
            ∧ mentions ("[" ++ task.Name ++ "] Task failed: " ++ e.msg) task.Name
            ∧ mentions ("[" ++ task.Name ++ "] Task failed: " ++ e.msg) e.msg
            ∧ ('\n' ∉ e.msg.data →
                logLines ("[" ++ task.Name ++ "] Task failed: " ++ e.msg) = 1)) := by
  refine ⟨?_, ?_, ?_⟩
  · intro w
    refine ⟨by simp only [main, if_true], by decide, ?_⟩
    exact ⟨"Error: ".data,
      ". Available tasks: email-processor, data-sync, report-generator".data, by decide⟩
  · intro taskName w h0 h
    have hs := (selectTask_eq_none_iff taskName).mpr h
    refine ⟨by simp only [main, h0, if_false, hs], mentions_mid _ _ _, ?_, ?_⟩
    · exact ⟨"Error: ".data, (" '" ++ taskName
        ++ "'. Available tasks: email-processor, data-sync, report-generator").data,
        by simp [String.data_append]⟩
    · intro hb
      apply logLines_one
      simp only [String.data_append, List.mem_append, not_or]
      exact ⟨⟨by decide, hb⟩, by decide⟩
  · intro taskName task w e ht herr hfirst
    have hn := selectTask_name_eq taskName task ht
    have hw := selectWait_result w (some e) herr hfirst
    refine ⟨?_, rfl, hn, ?_, mentions_end _ _, ?_⟩
    · rw [main_of_selectTask taskName task w ht]
      simp [supervise, hw, afterSelect]
    · exact ⟨"[".data, ("] Task failed: " ++ e.msg).data, by simp [String.data_append]⟩
    · intro hb
      have hv : taskName ∈ validNames := by
        by_contra hc
        rw [(selectTask_eq_none_iff taskName).mpr hc] at ht
        cases ht
      apply logLines_one
      simp only [String.data_append, List.mem_append, not_or]
      exact ⟨⟨⟨by decide, hn ▸ valid_no_break taskName hv⟩, by decide⟩, hb⟩

theorem main_fatal_one_line_witness :
    (main "unknown-task" ⟨false, none, false⟩
        = some ⟨[Effect.log ("Error: Unknown task '" ++ "unknown-task"
            ++ "'. Available tasks: email-processor, data-sync, report-generator")], 1⟩
      ∧ logLines ("Error: Unknown task '" ++ "unknown-task"
            ++ "'. Available tasks: email-processor, data-sync, report-generator") = 1)
      ∧ (main "data-sync" ⟨false, some (some ⟨"boom"⟩), false⟩
          = some ⟨[Effect.go DataSyncTask.asTask.Name,
              Effect.log ("[" ++ DataSyncTask.asTask.Name ++ "] Task failed: "
                ++ (GoError.mk "boom").msg)], 1⟩
        ∧ logLines ("[" ++ DataSyncTask.asTask.Name ++ "] Task failed: "
            ++ (GoError.mk "boom").msg) = 1) :=
  ⟨⟨(main_fatal_one_line.2.1 "unknown-task" ⟨false, none, false⟩ (by decide) (by decide)).1,
     (main_fatal_one_line.2.1 "unknown-task" ⟨false, none, false⟩ (by decide) (by decide)).2.2.2
       (by decide)⟩,
   ⟨(main_fatal_one_line.2.2 "data-sync" DataSyncTask.asTask
       ⟨false, some (some ⟨"boom"⟩), false⟩ ⟨"boom"⟩ (by simp [selectTask]) rfl (Or.inl rfl)).1,
     (main_fatal_one_line.2.2 "data-sync" DataSyncTask.asTask
       ⟨false, some (some ⟨"boom"⟩), false⟩ ⟨"boom"⟩ (by simp [selectTask]) rfl
       (Or.inl rfl)).2.2.2.2.2 (by decide)⟩⟩

end Consumer

/-! ## Properties of the HTTP backend -/

namespace Backend

theorem usersLoop_length (env : Env) (userCount fuel i : Nat) (g : Rng) (users : List User) :
    (usersLoop env userCount fuel i g users).1.length = users.length := by
  induction fuel generalizing i g users with
  | zero => rfl
  | succ fuel ih =>
    unfold usersLoop
    split_ifs with h
    · simp only [Rng.Intn]
      rw [ih]
      exact List.length_set _ _ _
    · rfl

theorem httpError_status (w : ResponseWriter) (msg : String) (code : Nat)
    (hw : w.status = none) : (httpError w msg code).status = some code := by
  simp [httpError, ResponseWriter.Write, ResponseWriter.WriteHeader, ResponseWriter.Set,
    ResponseWriter.Del, hw]

theorem httpError_body (w : ResponseWriter) (msg : String) (code : Nat)
    (hw : w.status = none) : (httpError w msg code).body = w.body ++ [Body.text (msg ++ "\n")] := by
  simp [httpError, ResponseWriter.Write, ResponseWriter.WriteHeader, ResponseWriter.Set,
    ResponseWriter.Del, hw]

theorem usersHandler_get_spec (env : Env) (w : ResponseWriter) (r : Request) (g : Rng)
    (hm : r.Method = "GET") (hw : w.status = none) :
    ∃ resp : UsersResponse,
      (usersHandler env w r g).1.status = some 200
        ∧ (usersHandler env w r g).1.body = w.body ++ [Body.users resp]
        ∧ 5 ≤ resp.Users.length ∧ resp.Users.length ≤ 10
        ∧ resp.Total = resp.Users.length := by
  have hlen := usersLoop_length env (g.src g.pos % 6 + 5) (g.src g.pos % 6 + 5) 0
    ⟨g.src, g.pos + 1⟩ (List.replicate (g.src g.pos % 6 + 5) User.zero)
  rw [List.length_replicate] at hlen
  refine ⟨⟨(usersLoop env (g.src g.pos % 6 + 5) (g.src g.pos % 6 + 5) 0
    ⟨g.src, g.pos + 1⟩ (List.replicate (g.src g.pos % 6 + 5) User.zero)).1,
    (usersLoop env (g.src g.pos % 6 + 5) (g.src g.pos % 6 + 5) 0
    ⟨g.src, g.pos + 1⟩ (List.replicate (g.src g.pos % 6 + 5) User.zero)).1.length⟩,
    ?_, ?_, ?_, ?_, rfl⟩
  · simp [usersHandler, hm, MethodGet, Rng.Intn, ResponseWriter.Write,
      ResponseWriter.WriteHeader, ResponseWriter.Set, hw, StatusOK]
  · simp [usersHandler, hm, MethodGet, Rng.Intn, ResponseWriter.Write,
      ResponseWriter.WriteHeader, ResponseWriter.Set, hw, StatusOK]
  · simp only [hlen]; omega
  · simp only [hlen]; omega

end Backend

namespace Backend

/-- The loop of `usersHandler` ends at its guard `i < userCount`, not for lack
of fuel: started with `userCount - i` iterations allowed, it has written every
slot from `i` on, slot `k` holding the user with `ID` `k + 1`. -/
theorem usersLoop_written (env : Env) (userCount fuel i : Nat) (g : Rng) (users : List User)
    (hf : i + fuel = userCount) (hl : users.length = userCount) :
    (∀ k, i ≤ k → k < userCount →
        ∃ u, (usersLoop env userCount fuel i g users).1[k]? = some u ∧ u.ID = k + 1)
      ∧ ∀ k, k < i → (usersLoop env userCount fuel i g users).1[k]? = users[k]? := by
  induction fuel generalizing i g users with
  | zero => exact ⟨fun k h₁ h₂ => by omega, fun k _ => rfl⟩
  | succ fuel ih =>
    have hi : i < userCount := by omega
    unfold usersLoop
    simp only [hi, if_true, Rng.Intn]
    obtain ⟨h₁, h₂⟩ := ih (i + 1) _ (users.set i _) (by omega) (by simp [hl])
    constructor
    · intro k hk hku
      by_cases hki : k = i
      · subst hki
        rw [h₂ k (by omega)]
        exact ⟨_, List.getElem?_set_self (by omega), rfl⟩
      · exact h₁ k (by omega) hku
    · intro k hk
      rw [h₂ k (by omega)]
      exact List.getElem?_set_ne (by omega)

theorem usersHandler_ids (env : Env) (w : ResponseWriter) (r : Request) (g : Rng)
    (hm : r.Method = "GET") (hw : w.status = none) :
    ∃ resp : UsersResponse,
      (usersHandler env w r g).1.body = w.body ++ [Body.users resp]
        ∧ ∀ k, k < resp.Users.length → ∃ u, resp.Users[k]? = some u ∧ u.ID = k + 1 := by
  have hlen := usersLoop_length env (g.src g.pos % 6 + 5) (g.src g.pos % 6 + 5) 0
    ⟨g.src, g.pos + 1⟩ (List.replicate (g.src g.pos % 6 + 5) User.zero)
  rw [List.length_replicate] at hlen
  have hwr := (usersLoop_written env (g.src g.pos % 6 + 5) (g.src g.pos % 6 + 5) 0
    ⟨g.src, g.pos + 1⟩ (List.replicate (g.src g.pos % 6 + 5) User.zero)
    (by omega) (by simp)).1
  refine ⟨⟨(usersLoop env (g.src g.pos % 6 + 5) (g.src g.pos % 6 + 5) 0
    ⟨g.src, g.pos + 1⟩ (List.replicate (g.src g.pos % 6 + 5) User.zero)).1,
    (usersLoop env (g.src g.pos % 6 + 5) (g.src g.pos % 6 + 5) 0
    ⟨g.src, g.pos + 1⟩ (List.replicate (g.src g.pos % 6 + 5) User.zero)).1.length⟩, ?_, ?_⟩
  · simp [usersHandler, hm, MethodGet, Rng.Intn, ResponseWriter.Write,
      ResponseWriter.WriteHeader, ResponseWriter.Set, hw, StatusOK]
  · intro k hk
    simp only [hlen] at hk
    exact hwr k (by omega) hk

end Backend

namespace K8s001

open Backend

theorem k8s_usersLoop_eq (env : Env) (userCount fuel i : Nat) (g : Rng) (users : List User) :
    K8s001.usersLoop env userCount fuel i g users
      = Backend.usersLoop env userCount fuel i g users := by
  induction fuel generalizing i g users with
  | zero => rfl
  | succ fuel ih =>
    unfold K8s001.usersLoop Backend.usersLoop
    split_ifs with h
    · simp only [ih]
    · rfl

theorem k8s_usersHandler_eq (env : Env) (w : ResponseWriter) (r : Request) (g : Rng) :
    K8s001.usersHandler env w r g = Backend.usersHandler env w r g := by
  unfold K8s001.usersHandler Backend.usersHandler
  simp only [k8s_usersLoop_eq]

theorem k8s_healthHandler_eq (env : Env) (w : ResponseWriter) (r : Request) (g : Rng) :
    K8s001.healthHandler env w r g = Backend.healthHandler env w r g := rfl

end K8s001

namespace K8s001

open Backend

theorem corsMiddleware_pass (next : HandlerFunc) (env : Env) (w : ResponseWriter)
    (r : Request) (g : Rng) (h : r.Method ≠ "OPTIONS") :
    corsMiddleware next env w r g
      = next env (((w.Set "Access-Control-Allow-Origin" "*").Set
          "Access-Control-Allow-Methods" "GET, POST, PUT, DELETE, OPTIONS").Set
          "Access-Control-Allow-Headers" "Content-Type, Authorization") r g := by
  simp [corsMiddleware, h]

end K8s001

/-- C9: for every GET request, every state of the random source and every
response writer that has not yet sent a status, `usersHandler` (in `backend`
and in `k8s-001/backend`, there also behind the CORS middleware) sends status
200 and writes one `UsersResponse` whose `Users` has at least 5 and at most 10
entries and whose `Total` is the length of `Users`. -/
theorem usersHandler_get (env : Backend.Env) (w : Backend.ResponseWriter)
    (r : Backend.Request) (g : Rng) (hm : r.Method = "GET") (hw : w.status = none) :
    (∃ resp : Backend.UsersResponse,
        (Backend.usersHandler env w r g).1.status = some 200
          ∧ (Backend.usersHandler env w r g).1.body = w.body ++ [Backend.Body.users resp]
          ∧ 5 ≤ resp.Users.length ∧ resp.Users.length ≤ 10
          ∧ resp.Total = resp.Users.length)
      ∧ (∃ resp : Backend.UsersResponse,
        (K8s001.usersHandler env w r g).1.status = some 200
          ∧ (K8s001.usersHandler env w r g).1.body = w.body ++ [Backend.Body.users resp]
          ∧ 5 ≤ resp.Users.length ∧ resp.Users.length ≤ 10
          ∧ resp.Total = resp.Users.length)
      ∧ (∃ resp : Backend.UsersResponse,
        (K8s001.usersRoute env w r g).1.status = some 200
          ∧ (K8s001.usersRoute env w r g).1.body = w.body ++ [Backend.Body.users resp]
          ∧ 5 ≤ resp.Users.length ∧ resp.Users.length ≤ 10
          ∧ resp.Total = resp.Users.length) := by
  refine ⟨Backend.usersHandler_get_spec env w r g hm hw, ?_, ?_⟩
  · rw [K8s001.k8s_usersHandler_eq]
    exact Backend.usersHandler_get_spec env w r g hm hw
  · have hopt : r.Method ≠ "OPTIONS" := by rw [hm]; decide
    unfold K8s001.usersRoute
    rw [K8s001.corsMiddleware_pass _ env w r g hopt, K8s001.k8s_usersHandler_eq]
    exact Backend.usersHandler_get_spec env _ r g hm (by simpa [Backend.ResponseWriter.Set] using hw)

theorem usersHandler_get_witness :
    (Backend.Request.mk "GET").Method = "GET" ∧ Backend.ResponseWriter.fresh.status = none
      ∧ (∃ resp : Backend.UsersResponse,
        (Backend.usersHandler sampleEnv Backend.ResponseWriter.fresh ⟨"GET"⟩
            ⟨fun i => i * 7 + 3, 0⟩).1.status = some 200
          ∧ (Backend.usersHandler sampleEnv Backend.ResponseWriter.fresh ⟨"GET"⟩
              ⟨fun i => i * 7 + 3, 0⟩).1.body
            = Backend.ResponseWriter.fresh.body ++ [Backend.Body.users resp]
          ∧ 5 ≤ resp.Users.length ∧ resp.Users.length ≤ 10
          ∧ resp.Total = resp.Users.length) :=
  ⟨rfl, rfl, (usersHandler_get sampleEnv Backend.ResponseWriter.fresh ⟨"GET"⟩
    ⟨fun i => i * 7 + 3, 0⟩ rfl rfl).1⟩

/-- C10: for every request whose method is not `GET` and every response writer
that has not yet sent a status, `healthHandler` and `usersHandler` (in both
copies) send status 405, write the text `Method not allowed` and nothing else,
and return without drawing from the random source: no user record is
generated and no JSON body is written. -/
theorem handlers_method_not_allowed (env : Backend.Env) (w : Backend.ResponseWriter)
    (r : Backend.Request) (g : Rng) (hm : r.Method ≠ "GET") (hw : w.status = none) :
    ((Backend.healthHandler env w r g).1.status = some 405
        ∧ (Backend.healthHandler env w r g).1.body
          = w.body ++ [Backend.Body.text "Method not allowed\n"]
        ∧ (Backend.healthHandler env w r g).2.pos = g.pos)
      ∧ ((Backend.usersHandler env w r g).1.status = some 405
        ∧ (Backend.usersHandler env w r g).1.body
          = w.body ++ [Backend.Body.text "Method not allowed\n"]
        ∧ (Backend.usersHandler env w r g).2.pos = g.pos)
      ∧ ((K8s001.healthHandler env w r g).1.status = some 405
        ∧ (K8s001.healthHandler env w r g).1.body
          = w.body ++ [Backend.Body.text "Method not allowed\n"]
        ∧ (K8s001.healthHandler env w r g).2.pos = g.pos)
      ∧ ((K8s001.usersHandler env w r g).1.status = some 405
        ∧ (K8s001.usersHandler env w r g).1.body
          = w.body ++ [Backend.Body.text "Method not allowed\n"]
        ∧ (K8s001.usersHandler env w r g).2.pos = g.pos) := by
  have hh : Backend.healthHandler env w r g
      = (Backend.httpError w "Method not allowed" 405, g) := by
    simp [Backend.healthHandler, Backend.MethodGet, hm, Backend.StatusMethodNotAllowed]
  have hu : Backend.usersHandler env w r g
      = (Backend.httpError w "Method not allowed" 405, g) := by
    simp [Backend.usersHandler, Backend.MethodGet, hm, Backend.StatusMethodNotAllowed]
  have hs := Backend.httpError_status w "Method not allowed" 405 hw
  have hb := Backend.httpError_body w "Method not allowed" 405 hw
  rw [K8s001.k8s_healthHandler_eq, K8s001.k8s_usersHandler_eq, hh, hu]
  exact ⟨⟨hs, hb, rfl⟩, ⟨hs, hb, rfl⟩, ⟨hs, hb, rfl⟩, ⟨hs, hb, rfl⟩⟩

theorem handlers_method_not_allowed_witness :
    (Backend.Request.mk "POST").Method ≠ "GET" ∧ Backend.ResponseWriter.fresh.status = none
      ∧ (Backend.usersHandler sampleEnv Backend.ResponseWriter.fresh ⟨"POST"⟩
          ⟨fun i => i * 7 + 3, 0⟩).1.status = some 405
      ∧ (Backend.usersHandler sampleEnv Backend.ResponseWriter.fresh ⟨"POST"⟩
          ⟨fun i => i * 7 + 3, 0⟩).1.body
        = Backend.ResponseWriter.fresh.body ++ [Backend.Body.text "Method not allowed\n"]
      ∧ (Backend.usersHandler sampleEnv Backend.ResponseWriter.fresh ⟨"POST"⟩
          ⟨fun i => i * 7 + 3, 0⟩).2.pos = 0 :=
  ⟨by decide, rfl, (handlers_method_not_allowed sampleEnv Backend.ResponseWriter.fresh ⟨"POST"⟩
    ⟨fun i => i * 7 + 3, 0⟩ (by decide) rfl).2.1⟩
